import Mathlib

/-!
Verification development for `Scripts/GeoSklearnRegression.py` (GeoLearn).

The script is shallowly embedded: Python numbers are modelled as exact
rationals (`ℚ`), Python exceptions as the `Except` monad over an explicit
`PyException` type, and the mutable world touched by the orchestrator
(report text file, pickled model file, message log) as explicit state that
survives a raised exception, exactly as the real filesystem does.

External collaborators that the script merely calls are represented as
explicit inputs: the sklearn estimator classes are records carrying the
facts the script depends on (which optional parameters `set_params`
accepts), and the sklearn numerical routines (`fit`, `predict`, the
`metrics` scorers and `feature_selection.f_regression`) are oracle
functions passed in, since the script only observes their success, failure
and returned values.  Concrete instances following the specification's
formulas (ordinary least squares, `R² = 1 − SS_res/SS_tot`, etc.) are
provided to evaluate the theorems on concrete inputs.

The helper module `glearnlib` (imported as `gl`) is part of the repository
but its source is not available here; per the specification the decorated
functions are pure over their inputs and `gl.arc_print` only logs, so the
decorator `gl.arc_tool_report` is modelled as transparent and `arc_print`
as appending to the message log.
-/

set_option autoImplicit false

namespace GeoLearn

/-- A raised Python exception.  `arcpy.ExecuteError` is kept as a separate
constructor because the orchestrator's first `except` clause matches on it;
every other exception is its class name together with its `args` tuple
(modelled as a list of strings, since the script only ever reads
`e.args[0]` and prints it). -/
inductive PyException where
  | executeError (args : List String)
  | other (kind : String) (args : List String)
  deriving DecidableEq, Repr

/-- A regression estimator class of the sklearn `linear_model` namespace,
carrying the external-library facts the script's reflection depends on:
its name and whether `set_params` accepts the `alpha` / `normalize`
keyword (raising `ValueError` otherwise). -/
structure EstimatorClass where
  name : String
  supports_alpha : Bool
  supports_normalize : Bool
  deriving DecidableEq, Repr

/-- A (possibly fitted) estimator instance.  `alpha` / `normalize` record
whether the corresponding `set_params` call succeeded; `coef_` and
`intercept_` are `none` for an unfitted model, so that reading them can
raise `AttributeError` just as in Python. -/
structure Estimator where
  className : String
  supports_alpha : Bool
  supports_normalize : Bool
  alpha : Option ℚ
  normalize : Option Bool
  coef_ : Option (List ℚ)
  intercept_ : Option ℚ
  deriving DecidableEq, Repr

/-- A Python module as seen by `getattr`: the estimator classes it binds. -/
structure SkModule where
  classes : List EstimatorClass
  deriving DecidableEq, Repr

/-- The part of the filesystem the orchestrator touches: which directories
exist, and the contents of the report text file and of the pickled model
file it writes into the output directory (`none` = file absent). -/
structure FS where
  dirs : List String
  reportFile : Option (List String)
  modelFile : Option Estimator
  deriving DecidableEq, Repr

/-- Result of one orchestrator invocation: the filesystem left behind, the
messages logged through `gl.arc_print` / `print`, and the final outcome
(`.error` = an exception escaped the invocation). -/
structure OrchResult where
  fs : FS
  log : List String
  outcome : Except PyException Unit
  deriving Repr

/-- The fields of `arcpy.Describe(in_fc)` the script reads. -/
structure DescribeInfo where
  name : String
  oidFieldName : String
  workspace : String
  deriving DecidableEq, Repr

/-- The sklearn `metrics` scorers the report builder calls.  They are
external routines; the script only observes their returned value or the
exception they raise, so they are oracle functions. -/
structure MetricsLib where
  r2_score : List ℚ → List ℚ → Except PyException ℚ
  mean_squared_error : List ℚ → List ℚ → Except PyException ℚ
  mean_absolute_error : List ℚ → List ℚ → Except PyException ℚ
  median_absolute_error : List ℚ → List ℚ → Except PyException ℚ

/-- The sklearn `feature_selection.f_regression` routine, returning
per-feature F-scores and p-values or raising. -/
structure FeatureSelectionLib where
  f_regression : List (List ℚ) → List ℚ → Except PyException (List ℚ × List ℚ)

/-! ## Python string rendering helpers -/

/-- A single-quote character as a string. -/
def squote : String := (Char.ofNat 39).toString

/-- Rendering of a Python float holding an exact rational: integers render
with a trailing `.0` as `str(float)` does; other rationals keep their
exact form (the script never branches on this text). -/
def pyFloatStr (q : ℚ) : String :=
  if q.den = 1 then toString q.num ++ ".0" else toString q

/-- Drop trailing zero digits (used after the decimal point). -/
def trimTrailingZeros (s : String) : String :=
  String.mk ((s.data.reverse.dropWhile (fun c => c = Char.ofNat 48)).reverse)

/-- Decimal rendering of `n / 1000` with at most three fractional digits,
as `str(round(x, 3))` renders the rounded float. -/
def decimalOfMilli (n : ℤ) : String :=
  let sign := if n < 0 then "-" else ""
  let m := n.natAbs
  let ip := m / 1000
  let fp := m % 1000
  if fp = 0 then sign ++ toString ip ++ ".0"
  else
    let s := toString fp
    let padded := String.mk (List.replicate (3 - s.length) (Char.ofNat 48)) ++ s
    sign ++ toString ip ++ "." ++ trimTrailingZeros padded

/-- Round-half-to-even on rationals, the tie rule of Python's `round`. -/
def roundHalfEven (x : ℚ) : ℤ :=
  let f : ℤ := Rat.floor x
  let r : ℚ := x - (f : ℚ)
  if r < 1/2 then f
  else if 1/2 < r then f + 1
  else if f % 2 = 0 then f else f + 1

/-- Rendering of `round(coef, 3)` inside the coefficient line. -/
def pyRound3Str (q : ℚ) : String := decimalOfMilli (roundHalfEven (q * 1000))

/-- Rendering of `str(numpy_array)` for a 1-D float array. -/
def npArrayStr (vals : List ℚ) : String :=
  "[" ++ String.intercalate " " (vals.map pyFloatStr) ++ "]"

/-- Rendering of `str(list(zip(names, values)))`. -/
def pyZipStr (names : List String) (vals : List ℚ) : String :=
  "[" ++ String.intercalate ", "
    ((names.zip vals).map
      (fun p => "(" ++ squote ++ p.1 ++ squote ++ ", " ++ pyFloatStr p.2 ++ ")")) ++ "]"

/-- Rendering of `str(estimator)` (sklearn repr of a constructed model). -/
def pyStr (e : Estimator) : String := e.className ++ "()"

/-- The message of the `AttributeError` raised when reading a missing
attribute. -/
def noAttrMsg (cls attr : String) : String :=
  squote ++ cls ++ squote ++ " object has no attribute " ++ squote ++ attr ++ squote

/-- Python attribute read: the value when present, `AttributeError`
otherwise. -/
def getAttr {α : Type} (o : Option α) (msg : String) : Except PyException α :=
  match o with
  | some v => .ok v
  | none => .error (.other "AttributeError" [msg])

/-! ## `get_model` (lines 46-65 of the script) -/

/-- `globals()[module]`: the script's global namespace, holding the
modules bound by the `import` statements at the top of the file. -/
def lookupGlobal (g : List (String × SkModule)) (m : String) : Option SkModule :=
  (g.find? (fun p => p.1 = m)).map Prod.snd

/-- `getattr(module_dict, regression_type)`: class lookup by name. -/
def findClass (mod : SkModule) (t : String) : Option EstimatorClass :=
  mod.classes.find? (fun c => c.name = t)

/-- `getattr(module_dict, regression_type)()`: construct the estimator
with default parameters (unfit, no optional parameter applied yet). -/
def constructEstimator (c : EstimatorClass) : Estimator :=
  ⟨c.name, c.supports_alpha, c.supports_normalize, none, none, none, none⟩

/-- `regression_model.set_params(alpha=alpha)`: succeeds exactly when the
estimator's class accepts the keyword, raising `ValueError` otherwise. -/
def set_params_alpha (e : Estimator) (a : ℚ) : Except PyException Estimator :=
  if e.supports_alpha then .ok { e with alpha := some a }
  else .error (.other "ValueError" ["Invalid parameter alpha for estimator " ++ e.className])

/-- `regression_model.set_params(normalize=normalize)`. -/
def set_params_normalize (e : Estimator) (n : Bool) : Except PyException Estimator :=
  if e.supports_normalize then .ok { e with normalize := some n }
  else .error (.other "ValueError" ["Invalid parameter normalize for estimator " ++ e.className])

/-- `get_model` (script lines 46-65).  Looks the module up in `globals()`
(`KeyError` when unbound), logs, resolves the class by name
(`AttributeError` when absent), constructs it, then best-effort-applies
`alpha` and `normalize`: each `set_params` call sits in its own
`try`/`except` whose handler only prints, so a failure of either is
swallowed independently.  Returns the log lines emitted together with the
outcome. -/
def get_model (g : List (String × SkModule)) (regression_type module : String)
    (alpha : ℚ) (normalize : Bool) : List String × Except PyException Estimator :=
  match lookupGlobal g module with
  | none => ([], .error (.other "KeyError" [module]))
  | some module_dict =>
    let log1 := ["Using input feature class and selected variables to establish " ++
      regression_type ++ " Regression Model."]
    match findClass module_dict regression_type with
    | none => (log1, .error (.other "AttributeError"
        ["module has no attribute " ++ squote ++ regression_type ++ squote]))
    | some cls =>
      let e0 := constructEstimator cls
      let step1 : List String × Estimator :=
        match set_params_alpha e0 alpha with
        | .ok e => ([], e)
        | .error _ => (["Did not set alpha in model..."], e0)
      let step2 : List String × Estimator :=
        match set_params_normalize step1.2 normalize with
        | .ok e => ([], e)
        | .error _ => (["Did not set normalize in model..."], step1.2)
      (log1 ++ step1.1 ++ step2.1, .ok step2.2)

/-! ## `regression_summary` (lines 69-116 of the script) -/

/-- The coefficient line of the report (script lines 83-90): paired
`"<round(coef,3)> * <name>"` terms joined by `" + "` when the name and
coefficient counts match, the raw vector otherwise. -/
def coefficientLine (regressor_names : List String) (coefs : List ℚ) : String :=
  if regressor_names.length = coefs.length then
    "  Regression Coefficents:  " ++ String.intercalate " + "
      ((coefs.zip regressor_names).map (fun p => pyRound3Str p.1 ++ " * " ++ p.2))
  else
    "  Regression Coefficents:  " ++ npArrayStr coefs

/-- The optional F-score/p-value block (script lines 101-115).  The
`try:` encloses the row-count comparison, the append of the
`"REGRESSOR SCORES"` header, the `f_regression` call and the score lines;
a bare `except: pass` swallows any failure, keeping whatever lines were
already appended — so when `f_regression` raises, the header line
survives while the score lines are omitted. -/
def regressorScoresBlock (F : FeatureSelectionLib) (regressor_names : List String)
    (dependent_array : List ℚ) (independents_array : List (List ℚ)) : List String :=
  if independents_array.length = dependent_array.length then
    "REGRESSOR SCORES" ::
      (match F.f_regression independents_array dependent_array with
       | .error _ => []
       | .ok fp =>
         if regressor_names.length = fp.2.length then
           ["  Regressor F-Scores:     " ++ pyZipStr regressor_names fp.1,
            "  Regressor P-Values:     " ++ pyZipStr regressor_names fp.2]
         else
           ["  Regressor F-Scores:     " ++ npArrayStr fp.1,
            "  Regressor P-Values:     " ++ npArrayStr fp.2])
  else []

/-- `regression_summary` (script lines 69-116).  Reads `coef_` and
`intercept_` off the model (raising `AttributeError` when absent, i.e. on
an unfitted model), renders the header/coefficient/intercept lines, the
four `metrics` scores, and finally the optional F-score block; any
exception outside the block's `try` propagates to the caller. -/
def regression_summary (M : MetricsLib) (F : FeatureSelectionLib)
    (regression_model : Estimator) (dependent_array predicted_values : List ℚ)
    (regressor_names : List String) (independents_array : List (List ℚ)) :
    Except PyException (List String) :=
  match getAttr regression_model.coef_ (noAttrMsg regression_model.className "coef_") with
  | .error e => .error e
  | .ok coefs =>
    match getAttr regression_model.intercept_
        (noAttrMsg regression_model.className "intercept_") with
    | .error e => .error e
    | .ok intercept =>
      match M.r2_score dependent_array predicted_values with
      | .error e => .error e
      | .ok r2 =>
        match M.mean_squared_error dependent_array predicted_values with
        | .error e => .error e
        | .ok mse =>
          match M.mean_absolute_error dependent_array predicted_values with
          | .error e => .error e
          | .ok mae =>
            match M.median_absolute_error dependent_array predicted_values with
            | .error e => .error e
            | .ok medae =>
              .ok (["REGRESSION MODEL: " ++ pyStr regression_model,
                    "MODEL COEFFICENTS",
                    coefficientLine regressor_names coefs,
                    "  Regression Intercept:    " ++ pyFloatStr intercept,
                    "MODEL EVALUATION",
                    "  Model Coefficent of Determination: " ++ pyFloatStr r2,
                    "  Model Mean Squared Error:          " ++ pyFloatStr mse,
                    "  Model Mean Absolute Error:         " ++ pyFloatStr mae,
                    "  Model Median Absolute Error:       " ++ pyFloatStr medae] ++
                   regressorScoresBlock F regressor_names dependent_array independents_array)

/-! ## The orchestrator `feature_class_sklearn_regression` (lines 120-179) -/

/-- `os.path.isdir(output_dir)` (script line 158).  For a string argument
the Python implementation turns any `OSError`/`ValueError` of `os.stat`
into `False`, so it never raises and answers whether the directory exists;
for `None` (the parameter's default) `os.stat` raises `TypeError`, which
`isdir` does not catch. -/
def isdir (p : Option String) (fs : FS) : Except PyException Bool :=
  match p with
  | none => .error (.other "TypeError"
      ["stat: path should be string, bytes, os.PathLike or integer, not NoneType"])
  | some s => .ok (fs.dirs.contains s)

/-- The report loop (script lines 169-172): each line is logged through
`gl.arc_print` and, when the output directory was valid, appended to the
already-open report file. -/
def writeReportLines (valid : Bool) (fs : FS) (log : List String)
    (lines : List String) : FS × List String :=
  lines.foldl
    (fun st line =>
      (if valid then { st.1 with reportFile := some ((st.1.reportFile.getD []) ++ [line]) }
       else st.1,
       st.2 ++ [line]))
    (fs, log)

/-- The external calls of one orchestrator invocation whose outcome the
script merely observes: the arcpy data bridge (`Describe`, the two
`FeatureClassToNumPyArray` reads together with their null-to-zero
coercion, `ExtendTable`), `joblib.dump`, `arcpy.GetMessages(2)`, the
script's global namespace, and the initial filesystem. -/
structure ArcEnv where
  describeResult : Except PyException DescribeInfo
  dependent_array : List ℚ
  oid_array : List ℤ
  independent_array : List (List ℚ)
  extendResult : Except PyException Unit
  dumpResult : Except PyException Unit
  messages2 : String
  globalsMap : List (String × SkModule)
  fs0 : FS

/-- The sklearn routines an invocation calls on the estimator. -/
structure SkEnv where
  fit : Estimator → List (List ℚ) → List ℚ → Except PyException Estimator
  predict : Estimator → List (List ℚ) → Except PyException (List ℚ)
  metrics : MetricsLib
  feature_selection : FeatureSelectionLib

/-- The body of `feature_class_sklearn_regression` (the `try:` block,
script lines 125-175), before the two `except` clauses.  State (filesystem
and log) survives a raised exception, as it does in reality.  The module
argument of the `get_model` call is the literal `"linear_model"`
(script line 142). -/
def feature_class_sklearn_regression_body (env : ArcEnv) (sk : SkEnv)
    (regression_model_type dependent_var : String) (independent_vars : List String)
    (alpha : ℚ) (normalize : Bool) (output_dir : Option String) : OrchResult :=
  match env.describeResult with
  | .error e => ⟨env.fs0, [], .error e⟩
  | .ok desc =>
    let log0 := ["Converting " ++ squote ++ desc.name ++ squote ++
      " feature class fields to numpy arrays."]
    match get_model env.globalsMap regression_model_type "linear_model" alpha normalize with
    | (glog, .error e) => ⟨env.fs0, log0 ++ glog, .error e⟩
    | (glog, .ok model0) =>
      let log1 := log0 ++ glog ++ ["Fitting " ++ pyStr model0 ++ " model to data."]
      match sk.fit model0 env.independent_array env.dependent_array with
      | .error e => ⟨env.fs0, log1, .error e⟩
      | .ok fitted =>
        match sk.predict fitted env.independent_array with
        | .error e => ⟨env.fs0, log1, .error e⟩
        | .ok predicted_values =>
          let log2 := log1 ++ ["Extending Prediction Fields to Output Feature Class."]
          match env.extendResult with
          | .error e => ⟨env.fs0, log2, .error e⟩
          | .ok _ =>
            match regression_summary sk.metrics sk.feature_selection fitted
                env.dependent_array predicted_values independent_vars
                env.independent_array with
            | .error e => ⟨env.fs0, log2, .error e⟩
            | .ok regession_report =>
              match isdir output_dir env.fs0 with
              | .error e => ⟨env.fs0, log2, .error e⟩
              | .ok valid =>
                match (if valid then
                    let log3 := log2 ++
                      ["Outputing Report and Pickled model to valid directory."]
                    let fsOpened : FS := { env.fs0 with reportFile := some [] }
                    let fsRemoved : FS := { fsOpened with modelFile := none }
                    match env.dumpResult with
                    | .error e => (fsRemoved, log3, Except.error e)
                    | .ok _ => ({ fsRemoved with modelFile := some fitted }, log3,
                        Except.ok ())
                  else (env.fs0, log2, Except.ok ())) with
                | (fs1, log3, .error e) => ⟨fs1, log3, .error e⟩
                | (fs1, log3, .ok _) =>
                  let final := writeReportLines valid fs1 log3 regession_report
                  ⟨final.1, final.2 ++ ["Script Completed Successfully."], .ok ()⟩

/-- `feature_class_sklearn_regression` (script lines 120-179): the body
wrapped in the two exception handlers.  `except arcpy.ExecuteError:` logs
`arcpy.GetMessages(2)`; `except Exception as e:` logs `e.args[0]` — an
expression that itself raises `IndexError` when the caught exception's
`args` tuple is empty, and that `IndexError` is not caught by anything. -/
def feature_class_sklearn_regression (env : ArcEnv) (sk : SkEnv)
    (regression_model_type dependent_var : String) (independent_vars : List String)
    (alpha : ℚ) (normalize : Bool) (output_dir : Option String) : OrchResult :=
  let r := feature_class_sklearn_regression_body env sk regression_model_type
    dependent_var independent_vars alpha normalize output_dir
  match r.outcome with
  | .ok _ => r
  | .error (.executeError _) => ⟨r.fs, r.log ++ [env.messages2], .ok ()⟩
  | .error (.other _ args) =>
    match args with
    | a :: _ => ⟨r.fs, r.log ++ [a], .ok ()⟩
    | [] => ⟨r.fs, r.log, .error (.other "IndexError" ["tuple index out of range"])⟩

/-! ## Concrete instances of the external routines

Modelled from the spec: the sklearn numerical internals are outside this
repository; the specification gives their contracts (ordinary least
squares fitting for `LinearRegression`, `R² = 1 − SS_res/SS_tot`,
`MSE = mean((y−ŷ)²)`, `MAE = mean(|y−ŷ|)`, `median AE = median(|y−ŷ|)`),
which the instances below follow.  They are used to instantiate the
theorems on concrete inputs. -/

/-- Arithmetic mean of a list of rationals. -/
def mean (l : List ℚ) : ℚ := l.sum / (l.length : ℚ)

/-- Median of a list of rationals (average of the two middle elements for
an even length, as `numpy.median` computes it). -/
def median (l : List ℚ) : ℚ :=
  let s := l.insertionSort (· ≤ ·)
  let n := l.length
  if n = 0 then 0
  else if n % 2 = 1 then s.getD (n / 2) 0
  else (s.getD (n / 2 - 1) 0 + s.getD (n / 2) 0) / 2

/-- The `ValueError` sklearn raises when validating degenerate input. -/
def skValueError : PyException :=
  .other "ValueError" ["Found array with 0 sample(s) or inconsistent numbers of samples"]

/-- Residual sum of squares. -/
def ssRes (y yp : List ℚ) : ℚ := ((y.zip yp).map (fun p => (p.1 - p.2) ^ 2)).sum

/-- Total sum of squares. -/
def ssTot (y : List ℚ) : ℚ := (y.map (fun v => (v - mean y) ^ 2)).sum

/-- Modelled from the spec: the four sklearn `metrics` scorers, by the
specification's standard formulas, raising `ValueError` on empty or
inconsistently sized input as sklearn's validation does. -/
def metricsSpec : MetricsLib where
  r2_score := fun y yp =>
    if y.length = yp.length ∧ y.length ≠ 0 then .ok (1 - ssRes y yp / ssTot y)
    else .error skValueError
  mean_squared_error := fun y yp =>
    if y.length = yp.length ∧ y.length ≠ 0 then .ok (ssRes y yp / (y.length : ℚ))
    else .error skValueError
  mean_absolute_error := fun y yp =>
    if y.length = yp.length ∧ y.length ≠ 0 then
      .ok (mean ((y.zip yp).map (fun p => |p.1 - p.2|)))
    else .error skValueError
  median_absolute_error := fun y yp =>
    if y.length = yp.length ∧ y.length ≠ 0 then
      .ok (median ((y.zip yp).map (fun p => |p.1 - p.2|)))
    else .error skValueError

/-- Ordinary-least-squares slope for one feature. -/
def olsSlope (xs ys : List ℚ) : ℚ :=
  (((xs.zip ys).map (fun p => (p.1 - mean xs) * (p.2 - mean ys))).sum) /
    ((xs.map (fun v => (v - mean xs) ^ 2)).sum)

/-- Modelled from the spec: `estimator.fit(X, y)` for a single-feature
design matrix, by ordinary least squares; stores the learned coefficient
vector and intercept on the estimator, raising `ValueError` on degenerate
shapes as sklearn's validation does. -/
def olsFit (e : Estimator) (X : List (List ℚ)) (y : List ℚ) : Except PyException Estimator :=
  if X.length = y.length ∧ X.length ≠ 0 ∧ X.all (fun r => r.length = 1) then
    let xs := X.map (fun r => r.headD 0)
    let w := olsSlope xs y
    .ok { e with coef_ := some [w], intercept_ := some (mean y - w * mean xs) }
  else .error skValueError

/-- Modelled from the spec: `estimator.predict(X)` for a single-feature
fitted model. -/
def olsPredict (e : Estimator) (X : List (List ℚ)) : Except PyException (List ℚ) :=
  match e.coef_, e.intercept_ with
  | some [w], some b => .ok (X.map (fun r => w * r.headD 0 + b))
  | _, _ => .error (.other "NotFittedError" ["This estimator instance is not fitted yet."])

/-- A concrete stand-in for `feature_selection.f_regression` that
succeeds, returning per-feature score lists (one entry per column of a
rectangular design matrix); only its success and the lengths of its
results matter to the properties below. -/
def fRegressionOracle : FeatureSelectionLib where
  f_regression := fun X y =>
    if X.length = y.length ∧ 2 ≤ X.length ∧ X.all (fun r => r.length = (X.headD []).length)
    then .ok (List.replicate (X.headD []).length 1, List.replicate (X.headD []).length 1)
    else .error skValueError

/-- A concrete stand-in for `feature_selection.f_regression` that raises,
as sklearn does e.g. for a 1-D or otherwise invalid design matrix whose
row count nevertheless matches the dependent vector. -/
def fRegressionFailing : FeatureSelectionLib where
  f_regression := fun _ _ => .error skValueError

/-- The `sklearn.linear_model` namespace as bound by the script's import:
the estimator classes reachable by name, with the external-library facts
of which of them accept `alpha` / `normalize` through `set_params`
(`LinearRegression` has no regularization strength; `SGDRegressor` and
`HuberRegressor` have no `normalize` flag). -/
def linear_model : SkModule where
  classes :=
    [⟨"LinearRegression", false, true⟩,
     ⟨"Ridge", true, true⟩,
     ⟨"Lasso", true, true⟩,
     ⟨"ElasticNet", true, true⟩,
     ⟨"LassoLars", true, true⟩,
     ⟨"BayesianRidge", false, true⟩,
     ⟨"ARDRegression", false, true⟩,
     ⟨"SGDRegressor", true, false⟩,
     ⟨"HuberRegressor", true, false⟩]

/-- The script's global namespace after a successful sklearn import. -/
def scriptGlobals : List (String × SkModule) := [("linear_model", linear_model)]

/-- The sklearn routines instantiated with the spec-modelled
implementations above. -/
def skSpec : SkEnv where
  fit := olsFit
  predict := olsPredict
  metrics := metricsSpec
  feature_selection := fRegressionOracle

/-- A benign environment: four records with dependent values `1,2,3,4`
and a single independent column `1,2,3,4`, every arcpy call succeeding,
and an existing output directory named `outdir`. -/
def envHappy : ArcEnv where
  describeResult := .ok ⟨"fc", "OBJECTID", "ws"⟩
  dependent_array := [1, 2, 3, 4]
  oid_array := [1, 2, 3, 4]
  independent_array := [[1], [2], [3], [4]]
  extendResult := .ok ()
  dumpResult := .ok ()
  messages2 := "arcpy error messages"
  globalsMap := scriptGlobals
  fs0 := ⟨["outdir"], none, none⟩

/-- `envHappy` with a failing `joblib.dump` and stale output files of a
previous run, to observe truncation and the absence of cleanup. -/
def envDumpFails : ArcEnv :=
  { envHappy with
    dumpResult := .error (.other "OSError" ["No space left on device"])
    fs0 := ⟨["outdir"], some ["stale report line"],
            some ⟨"Ridge", true, true, some 1, some false, some [7], some 7⟩⟩ }

/-- `envHappy` except that the model fit raises an exception whose `args`
tuple is empty (as e.g. a bare `raise MemoryError` does). -/
def skFitRaisesArgless : SkEnv :=
  { skSpec with fit := fun _ _ _ => .error (.other "MemoryError" []) }

/-- `skSpec` except that the model fit raises a one-argument exception. -/
def skFitRaisesValueError : SkEnv :=
  { skSpec with fit := fun _ _ _ => .error (.other "ValueError" ["fit failed"]) }

/-- `envHappy` except that `arcpy.Describe` raises `arcpy.ExecuteError`. -/
def envExecuteError : ArcEnv :=
  { envHappy with describeResult := .error (.executeError ["ERROR 000732"]) }

/-- The lines of a successful report-builder result (empty on error). -/
def okLines (r : Except PyException (List String)) : List String :=
  match r with
  | .ok l => l
  | .error _ => []

/-- Whether an `Except` result is a success. -/
def exceptIsOk {α : Type} (r : Except PyException α) : Bool :=
  match r with
  | .ok _ => true
  | .error _ => false

/-! ## Helper lemmas -/

theorem writeReportLines_false (fs : FS) (log lines : List String) :
    writeReportLines false fs log lines = (fs, log ++ lines) := by
  induction lines generalizing log with
  | nil => simp [writeReportLines]
  | cons a l ih =>
    simpa [writeReportLines, List.append_assoc] using ih (log ++ [a])

theorem writeReportLines_true (fs : FS) (c log lines : List String)
    (h : fs.reportFile = some c) :
    writeReportLines true fs log lines =
      ({ fs with reportFile := some (c ++ lines) }, log ++ lines) := by
  obtain ⟨ds, rf, mf⟩ := fs
  simp only at h
  subst h
  induction lines generalizing c log with
  | nil => simp [writeReportLines]
  | cons a l ih =>
    simpa [writeReportLines, List.append_assoc] using ih (c ++ [a]) (log ++ [a])

theorem writeReportLines_preserves (valid : Bool) (fs : FS) (log lines : List String) :
    (writeReportLines valid fs log lines).1.modelFile = fs.modelFile ∧
    (writeReportLines valid fs log lines).1.dirs = fs.dirs := by
  induction lines generalizing fs log with
  | nil => exact ⟨rfl, rfl⟩
  | cons a l ih =>
    cases valid with
    | false => simpa [writeReportLines] using ih fs (log ++ [a])
    | true =>
      simpa [writeReportLines] using
        ih { fs with reportFile := some ((fs.reportFile.getD []) ++ [a]) } (log ++ [a])

theorem get_model_ok_className (g : List (String × SkModule)) (t m : String)
    (a : ℚ) (n : Bool) (lg : List String) (e : Estimator)
    (h : get_model g t m a n = (lg, .ok e)) :
    ∃ mod cls, lookupGlobal g m = some mod ∧ findClass mod t = some cls ∧
      e.className = t := by
  unfold get_model at h
  rcases hmod : lookupGlobal g m with _ | mod
  · rw [hmod] at h; cases h
  · rw [hmod] at h
    dsimp only at h
    rcases hcls : findClass mod t with _ | cls
    · rw [hcls] at h; cases h
    · rw [hcls] at h
      dsimp only at h
      have hname : cls.name = t := by
        have := List.find?_some hcls
        simpa using this
      refine ⟨mod, cls, rfl, hcls, ?_⟩
      by_cases h1 : (constructEstimator cls).supports_alpha <;>
        by_cases h2 : cls.supports_normalize <;>
        simp only [set_params_alpha, set_params_normalize, h1, h2, constructEstimator,
          if_true, if_false, ite_true, ite_false] at h <;>
        simp_all [constructEstimator] <;>
        simp [← h.2, hname]

theorem olsFit_preserves_className (e0 : Estimator) (X : List (List ℚ)) (y : List ℚ)
    (e1 : Estimator) (h : olsFit e0 X y = .ok e1) : e1.className = e0.className := by
  unfold olsFit at h
  split at h
  · injection h with h'
    rw [← h']
  · cases h

theorem wrapper_fs_eq_body_fs (env : ArcEnv) (sk : SkEnv) (t dv : String)
    (iv : List String) (a : ℚ) (n : Bool) (od : Option String) :
    (feature_class_sklearn_regression env sk t dv iv a n od).fs =
      (feature_class_sklearn_regression_body env sk t dv iv a n od).fs := by
  unfold feature_class_sklearn_regression
  rcases h : (feature_class_sklearn_regression_body env sk t dv iv a n od).outcome
    with e | v
  · rcases e with args | ⟨k, args⟩
    · simp [h]
    · rcases args with _ | ⟨a0, rest⟩ <;> simp [h]
  · simp [h]

/-! ## Claim theorems -/

/-- C6: when the name list and the coefficient vector have equal length,
the report's coefficient line is the fixed label followed by exactly one
`"<coefficient rounded to 3 decimals> * <name>"` term per coefficient,
joined by `" + "`, in coefficient order; on mismatched lengths it is the
label followed by the raw coefficient vector. -/
theorem coefficient_line_rendering (ns : List String) (cs : List ℚ) :
    (ns.length = cs.length →
      ∃ terms : List String,
        coefficientLine ns cs =
          "  Regression Coefficents:  " ++ String.intercalate " + " terms ∧
        terms.length = cs.length ∧
        ∀ (i : ℕ), (h1 : i < cs.length) → (h2 : i < ns.length) → (h3 : i < terms.length) →
          terms[i] = pyRound3Str cs[i] ++ " * " ++ ns[i]) ∧
    (ns.length ≠ cs.length →
      coefficientLine ns cs = "  Regression Coefficents:  " ++ npArrayStr cs) := by
  constructor
  · intro h
    refine ⟨(cs.zip ns).map (fun p => pyRound3Str p.1 ++ " * " ++ p.2), ?_, ?_, ?_⟩
    · simp [coefficientLine, h]
    · simp [h]
    · intro i h1 h2 h3
      simp
  · intro h
    simp [coefficientLine, h]

/-- C6 witness: a matched-length instance and a mismatched-length
instance of the coefficient-line theorem. -/
theorem coefficient_line_rendering_witness :
    ((["a"] : List String).length = ([3/2] : List ℚ).length ∧
      (∃ terms : List String,
        coefficientLine ["a"] [3/2] =
          "  Regression Coefficents:  " ++ String.intercalate " + " terms ∧
        terms.length = ([3/2] : List ℚ).length ∧
        ∀ (i : ℕ), (h1 : i < ([3/2] : List ℚ).length) → (h2 : i < (["a"] : List String).length) →
          (h3 : i < terms.length) →
          terms[i] = pyRound3Str (([3/2] : List ℚ)[i]) ++ " * " ++ ((["a"] : List String)[i]))) ∧
    ((["a", "b"] : List String).length ≠ ([1] : List ℚ).length ∧
      coefficientLine ["a", "b"] [1] = "  Regression Coefficents:  " ++ npArrayStr [1]) :=
  ⟨⟨rfl, (coefficient_line_rendering ["a"] [3/2]).1 rfl⟩,
   ⟨by decide, (coefficient_line_rendering ["a", "b"] [1]).2 (by decide)⟩⟩

/-- C10: called on a model without a `coef_` attribute (an unfitted
estimator), the report builder raises `AttributeError` at the very first
attribute access instead of returning a line list, whatever the other
arguments are. -/
theorem regression_summary_requires_fitted_model (M : MetricsLib) (F : FeatureSelectionLib)
    (e : Estimator) (y p : List ℚ) (ns : List String) (X : List (List ℚ))
    (h : e.coef_ = none) :
    regression_summary M F e y p ns X =
      .error (.other "AttributeError" [noAttrMsg e.className "coef_"]) := by
  simp [regression_summary, getAttr, h]

/-- C10 witness: the report builder applied to a concrete unfitted
`LinearRegression` estimator raises `AttributeError`. -/
theorem regression_summary_requires_fitted_model_witness :
    regression_summary metricsSpec fRegressionOracle
      ⟨"LinearRegression", false, true, none, some false, none, none⟩
      [1, 2] [1, 2] ["a"] [[1], [2]] =
      .error (.other "AttributeError" [noAttrMsg "LinearRegression" "coef_"]) :=
  regression_summary_requires_fitted_model metricsSpec fRegressionOracle
    ⟨"LinearRegression", false, true, none, some false, none, none⟩
    [1, 2] [1, 2] ["a"] [[1], [2]] rfl

/-- C3: whenever the requested regression-type name resolves to a class
of the module bound in `globals()`, `get_model` returns a constructed
estimator of that class, with `alpha` applied exactly when the class
supports it and `normalize` applied exactly when the class supports it —
each application independent of the other's success, and each failure
swallowed with only a log line. -/
theorem get_model_best_effort_params (g : List (String × SkModule)) (m t : String)
    (a : ℚ) (n : Bool) (mod : SkModule) (cls : EstimatorClass)
    (hmod : lookupGlobal g m = some mod) (hcls : findClass mod t = some cls) :
    (get_model g t m a n).2 =
      .ok ⟨t, cls.supports_alpha, cls.supports_normalize,
        if cls.supports_alpha then some a else none,
        if cls.supports_normalize then some n else none, none, none⟩ ∧
    (cls.supports_alpha = false →
      (get_model g t m a n).1.contains "Did not set alpha in model..." = true) ∧
    (cls.supports_normalize = false →
      (get_model g t m a n).1.contains "Did not set normalize in model..." = true) := by
  have hname : cls.name = t := by
    have := List.find?_some hcls
    simpa using this
  subst hname
  by_cases h1 : cls.supports_alpha <;> by_cases h2 : cls.supports_normalize <;>
    refine ⟨?_, ?_, ?_⟩ <;>
    simp [get_model, hmod, hcls, constructEstimator, set_params_alpha, set_params_normalize,
      h1, h2]

/-- C3 witness: `LinearRegression` (no `alpha`, has `normalize`) gets
`normalize` applied while the `alpha` failure is swallowed and logged. -/
theorem get_model_best_effort_params_witness :
    (get_model scriptGlobals "LinearRegression" "linear_model" 2 true).2 =
      .ok ⟨"LinearRegression", false, true, none, some true, none, none⟩ ∧
    (get_model scriptGlobals "LinearRegression" "linear_model" 2 true).1.contains
      "Did not set alpha in model..." = true := by
  have h := get_model_best_effort_params scriptGlobals "linear_model" "LinearRegression"
    2 true linear_model ⟨"LinearRegression", false, true⟩ rfl rfl
  exact ⟨h.1, h.2.1 rfl⟩

/-- C7: on the scenario dependent `[1,2,3,4]`, independent
`[[1],[2],[3],[4]]`, regression type `"LinearRegression"`: `get_model`
constructs the estimator, the (spec-modelled) least-squares fit learns
coefficient exactly 1 and intercept exactly 0, the predictions are
exactly `[1,2,3,4]`, and the reported R² is exactly 1. -/
theorem linear_fit_scenario :
    (get_model scriptGlobals "LinearRegression" "linear_model" 1 false).2 =
      .ok ⟨"LinearRegression", false, true, none, some false, none, none⟩ ∧
    olsFit ⟨"LinearRegression", false, true, none, some false, none, none⟩
      [[1], [2], [3], [4]] [1, 2, 3, 4] =
      .ok ⟨"LinearRegression", false, true, none, some false, some [1], some 0⟩ ∧
    olsPredict ⟨"LinearRegression", false, true, none, some false, some [1], some 0⟩
      [[1], [2], [3], [4]] = .ok [1, 2, 3, 4] ∧
    metricsSpec.r2_score [1, 2, 3, 4] [1, 2, 3, 4] = .ok 1 := by
  refine ⟨rfl, ?_, ?_, ?_⟩ <;> with_unfolding_all rfl

/-- C1 (amended): on a fitted model whose four metric calls succeed, the
report builder always returns a line list (no exception from the optional
block ever propagates); the F-score block is attempted exactly when the
independent-variable row count equals the dependent length, and a failure
of `f_regression` inside the block is swallowed — but the block's
`"REGRESSOR SCORES"` header line, appended before the failing call,
remains in the returned list, so the block is truncated rather than
entirely omitted. -/
theorem regression_summary_fblock_partial (M : MetricsLib) (F : FeatureSelectionLib)
    (e : Estimator) (y p : List ℚ) (ns : List String) (X : List (List ℚ))
    (cs : List ℚ) (ic r2 mse mae medae : ℚ)
    (hc : e.coef_ = some cs) (hi : e.intercept_ = some ic)
    (h1 : M.r2_score y p = .ok r2) (h2 : M.mean_squared_error y p = .ok mse)
    (h3 : M.mean_absolute_error y p = .ok mae)
    (h4 : M.median_absolute_error y p = .ok medae) :
    ∃ L : List String,
      regression_summary M F e y p ns X = .ok L ∧
      L.drop 9 = regressorScoresBlock F ns y X ∧
      (X.length ≠ y.length → L.drop 9 = []) ∧
      (X.length = y.length → ∀ err, F.f_regression X y = .error err →
        L.drop 9 = ["REGRESSOR SCORES"]) ∧
      (X.length = y.length → ∀ fscores pvalues,
        F.f_regression X y = .ok (fscores, pvalues) →
        ∃ lf lp, L.drop 9 = ["REGRESSOR SCORES", lf, lp]) := by
  simp only [regression_summary, getAttr, hc, hi, h1, h2, h3, h4]
  refine ⟨_, rfl, rfl, ?_, ?_, ?_⟩
  · intro hne
    simp [regressorScoresBlock, hne]
  · intro heq err herr
    simp [regressorScoresBlock, heq, herr]
  · intro heq fscores pvalues hok
    simp only [regressorScoresBlock, heq, hok, if_pos]
    split
    · exact ⟨_, _, rfl⟩
    · exact ⟨_, _, rfl⟩

/-- C1 witness: the amended theorem instantiated on a fitted model with a
succeeding `f_regression`, giving the full block. -/
theorem regression_summary_fblock_partial_witness :
    ∃ L : List String,
      regression_summary metricsSpec fRegressionOracle
        ⟨"LinearRegression", false, true, none, some false, some [1], some 0⟩
        [1, 2, 3, 4] [1, 2, 3, 4] ["x"] [[1], [2], [3], [4]] = .ok L ∧
      L.drop 9 = regressorScoresBlock fRegressionOracle ["x"] [1, 2, 3, 4]
        [[1], [2], [3], [4]] ∧
      (([[1], [2], [3], [4]] : List (List ℚ)).length ≠ ([1, 2, 3, 4] : List ℚ).length →
        L.drop 9 = []) ∧
      (([[1], [2], [3], [4]] : List (List ℚ)).length = ([1, 2, 3, 4] : List ℚ).length →
        ∀ err, fRegressionOracle.f_regression [[1], [2], [3], [4]] [1, 2, 3, 4] = .error err →
        L.drop 9 = ["REGRESSOR SCORES"]) ∧
      (([[1], [2], [3], [4]] : List (List ℚ)).length = ([1, 2, 3, 4] : List ℚ).length →
        ∀ fscores pvalues,
        fRegressionOracle.f_regression [[1], [2], [3], [4]] [1, 2, 3, 4] =
          .ok (fscores, pvalues) →
        ∃ lf lp, L.drop 9 = ["REGRESSOR SCORES", lf, lp]) :=
  regression_summary_fblock_partial metricsSpec fRegressionOracle
    ⟨"LinearRegression", false, true, none, some false, some [1], some 0⟩
    [1, 2, 3, 4] [1, 2, 3, 4] ["x"] [[1], [2], [3], [4]] [1] 0 1 0 0 0
    rfl rfl (by with_unfolding_all rfl) (by with_unfolding_all rfl)
    (by with_unfolding_all rfl) (by with_unfolding_all rfl)

/-- C1 counterexample: with matching row counts but a failing
`f_regression` (as sklearn's validation produces for a degenerate design
matrix), the report builder succeeds and the returned list still contains
the `"REGRESSOR SCORES"` header — the optional block is not entirely
omitted, contradicting the claim. -/
theorem regression_summary_fblock_header_survives :
    fRegressionFailing.f_regression [[1], [2]] [1, 2] = .error skValueError ∧
    exceptIsOk (regression_summary metricsSpec fRegressionFailing
      ⟨"LinearRegression", false, true, none, some false, some [1], some 0⟩
      [1, 2] [1, 2] ["a"] [[1], [2]]) = true ∧
    (okLines (regression_summary metricsSpec fRegressionFailing
      ⟨"LinearRegression", false, true, none, some false, some [1], some 0⟩
      [1, 2] [1, 2] ["a"] [[1], [2]])).contains "REGRESSOR SCORES" = true := by
  refine ⟨rfl, ?_, ?_⟩ <;> with_unfolding_all rfl

/-- C2 (amended): when the output directory is a string that does not
name an existing directory, a run whose earlier stages succeed logs every
report line, leaves the filesystem untouched (no report text file, no
model file), and raises no error.  (For an absent — `None` — output
directory the claim fails: see the counterexample theorem.) -/
theorem invalid_output_dir_report_logged (env : ArcEnv) (sk : SkEnv)
    (t dv : String) (iv : List String) (a : ℚ) (n : Bool) (d : String)
    (desc : DescribeInfo) (glog : List String) (m0 fitted : Estimator)
    (preds : List ℚ) (report : List String)
    (hdesc : env.describeResult = .ok desc)
    (hgm : get_model env.globalsMap t "linear_model" a n = (glog, .ok m0))
    (hfit : sk.fit m0 env.independent_array env.dependent_array = .ok fitted)
    (hpred : sk.predict fitted env.independent_array = .ok preds)
    (hext : env.extendResult = .ok ())
    (hsum : regression_summary sk.metrics sk.feature_selection fitted
      env.dependent_array preds iv env.independent_array = .ok report)
    (hdir : d ∉ env.fs0.dirs) :
    ∃ logPre : List String,
      feature_class_sklearn_regression env sk t dv iv a n (some d) =
        ⟨env.fs0, (logPre ++ report) ++ ["Script Completed Successfully."], .ok ()⟩ := by
  refine ⟨(["Converting " ++ squote ++ desc.name ++ squote ++
      " feature class fields to numpy arrays."] ++ glog ++
      ["Fitting " ++ pyStr m0 ++ " model to data."]) ++
      ["Extending Prediction Fields to Output Feature Class."], ?_⟩
  simp [feature_class_sklearn_regression, feature_class_sklearn_regression_body,
    hdesc, hgm, hfit, hpred, hext, hsum, isdir, hdir, writeReportLines_false,
    List.append_assoc]

/-- C2 witness: the amended theorem instantiated on a benign run with the
non-existing directory name `nope`. -/
theorem invalid_output_dir_report_logged_witness :
    (feature_class_sklearn_regression envHappy skSpec "LinearRegression" "dep" ["x"]
      1 false (some "nope")).fs = envHappy.fs0 ∧
    (feature_class_sklearn_regression envHappy skSpec "LinearRegression" "dep" ["x"]
      1 false (some "nope")).outcome = .ok () ∧
    "REGRESSION MODEL: LinearRegression()" ∈
      (feature_class_sklearn_regression envHappy skSpec "LinearRegression" "dep" ["x"]
        1 false (some "nope")).log := by
  obtain ⟨pre, h⟩ := invalid_output_dir_report_logged envHappy skSpec "LinearRegression"
    "dep" ["x"] 1 false "nope" ⟨"fc", "OBJECTID", "ws"⟩ _ _ _ _ _
    rfl (by with_unfolding_all rfl) (by with_unfolding_all rfl)
    (by with_unfolding_all rfl) rfl (by with_unfolding_all rfl) (by decide)
  rw [h]
  refine ⟨rfl, rfl, ?_⟩
  simp only [List.mem_append]
  exact Or.inl (Or.inr (by decide))

/-- C2 counterexample: invoked with an absent (`None`) output directory,
`os.path.isdir(None)` raises `TypeError` before the report loop; the
generic handler swallows it, so no error escapes — but none of the report
lines (whose first line is shown to be in the computed report) is ever
logged, contradicting the claim that the report is still logged. -/
theorem absent_output_dir_report_not_logged :
    (feature_class_sklearn_regression envHappy skSpec "LinearRegression" "dep" ["x"]
      1 false none).outcome = .ok () ∧
    (feature_class_sklearn_regression envHappy skSpec "LinearRegression" "dep" ["x"]
      1 false none).log.contains "REGRESSION MODEL: LinearRegression()" = false ∧
    (okLines (regression_summary skSpec.metrics skSpec.feature_selection
      ⟨"LinearRegression", false, true, none, some false, some [1], some 0⟩
      [1, 2, 3, 4] [1, 2, 3, 4] ["x"] [[1], [2], [3], [4]])).contains
      "REGRESSION MODEL: LinearRegression()" = true := by
  refine ⟨?_, ?_, ?_⟩ <;> with_unfolding_all rfl

/-- C8: with a valid output directory, the report file is opened for
writing (truncating whatever content it had) before the model is
serialized; when `joblib.dump` then fails, the invocation leaves behind an
empty report file, and no model file (a pre-existing one was already
removed) — file outputs are not atomic and nothing is cleaned up. -/
theorem report_opened_before_model_dump (env : ArcEnv) (sk : SkEnv)
    (t dv : String) (iv : List String) (a : ℚ) (n : Bool) (d : String)
    (desc : DescribeInfo) (glog : List String) (m0 fitted : Estimator)
    (preds : List ℚ) (report : List String) (ex : PyException)
    (hdesc : env.describeResult = .ok desc)
    (hgm : get_model env.globalsMap t "linear_model" a n = (glog, .ok m0))
    (hfit : sk.fit m0 env.independent_array env.dependent_array = .ok fitted)
    (hpred : sk.predict fitted env.independent_array = .ok preds)
    (hext : env.extendResult = .ok ())
    (hsum : regression_summary sk.metrics sk.feature_selection fitted
      env.dependent_array preds iv env.independent_array = .ok report)
    (hdir : d ∈ env.fs0.dirs)
    (hdump : env.dumpResult = .error ex) :
    (feature_class_sklearn_regression env sk t dv iv a n (some d)).fs.reportFile =
      some [] ∧
    (feature_class_sklearn_regression env sk t dv iv a n (some d)).fs.modelFile =
      none := by
  rw [wrapper_fs_eq_body_fs]
  simp [feature_class_sklearn_regression_body, hdesc, hgm, hfit, hpred, hext, hsum,
    isdir, hdir, hdump]

/-- C8 witness: a run over stale output files with a failing
`joblib.dump` ends with an empty (truncated) report file and no model
file. -/
theorem report_opened_before_model_dump_witness :
    (feature_class_sklearn_regression envDumpFails skSpec "LinearRegression" "dep" ["x"]
      1 false (some "outdir")).fs.reportFile = some [] ∧
    (feature_class_sklearn_regression envDumpFails skSpec "LinearRegression" "dep" ["x"]
      1 false (some "outdir")).fs.modelFile = none :=
  report_opened_before_model_dump envDumpFails skSpec "LinearRegression" "dep" ["x"]
    1 false "outdir" ⟨"fc", "OBJECTID", "ws"⟩ _ _ _ _ _
    (.other "OSError" ["No space left on device"])
    rfl (by with_unfolding_all rfl) (by with_unfolding_all rfl)
    (by with_unfolding_all rfl) rfl (by with_unfolding_all rfl) (by decide) rfl

/-- C5: when the requested regression-type name is not bound in the
`linear_model` namespace, the body raises `AttributeError` at the
`getattr` lookup (the spec's `UnknownModelError`); the generic handler
reports it, and the invocation ends with the filesystem exactly as it
started — no report text file and no model file are produced. -/
theorem unknown_model_no_output_files (env : ArcEnv) (sk : SkEnv)
    (t dv : String) (iv : List String) (a : ℚ) (n : Bool) (od : Option String)
    (desc : DescribeInfo) (mod : SkModule)
    (hdesc : env.describeResult = .ok desc)
    (hmod : lookupGlobal env.globalsMap "linear_model" = some mod)
    (hcls : findClass mod t = none) :
    (feature_class_sklearn_regression_body env sk t dv iv a n od).outcome =
      .error (.other "AttributeError"
        ["module has no attribute " ++ squote ++ t ++ squote]) ∧
    (feature_class_sklearn_regression env sk t dv iv a n od).fs = env.fs0 ∧
    (feature_class_sklearn_regression env sk t dv iv a n od).outcome = .ok () := by
  refine ⟨?_, ?_, ?_⟩ <;>
    simp [feature_class_sklearn_regression, feature_class_sklearn_regression_body,
      hdesc, get_model, hmod, hcls]

/-- C5 witness: requesting `"NotAModel"` raises the lookup failure and
writes no files even though the output directory is valid. -/
theorem unknown_model_no_output_files_witness :
    (feature_class_sklearn_regression_body envHappy skSpec "NotAModel" "dep" ["x"]
      1 false (some "outdir")).outcome =
      .error (.other "AttributeError"
        ["module has no attribute " ++ squote ++ "NotAModel" ++ squote]) ∧
    (feature_class_sklearn_regression envHappy skSpec "NotAModel" "dep" ["x"]
      1 false (some "outdir")).fs = envHappy.fs0 ∧
    (feature_class_sklearn_regression envHappy skSpec "NotAModel" "dep" ["x"]
      1 false (some "outdir")).outcome = .ok () :=
  unknown_model_no_output_files envHappy skSpec "NotAModel" "dep" ["x"] 1 false
    (some "outdir") ⟨"fc", "OBJECTID", "ws"⟩ linear_model rfl rfl
    (by with_unfolding_all rfl)

/-- C4 (amended): the orchestrator's handlers catch `arcpy.ExecuteError`
(reporting the platform messages) and any other exception whose `args`
tuple is non-empty (reporting its first argument and halting the
invocation without crashing); but for an exception with an empty `args`
tuple the generic handler's own `e.args[0]` raises `IndexError`, which
escapes — the handlers do not survive every exception. -/
theorem exception_handlers_behavior (env : ArcEnv) (sk : SkEnv)
    (t dv : String) (iv : List String) (a : ℚ) (n : Bool) (od : Option String) :
    (∀ args, (feature_class_sklearn_regression_body env sk t dv iv a n od).outcome =
        .error (.executeError args) →
      feature_class_sklearn_regression env sk t dv iv a n od =
        ⟨(feature_class_sklearn_regression_body env sk t dv iv a n od).fs,
         (feature_class_sklearn_regression_body env sk t dv iv a n od).log ++
           [env.messages2], .ok ()⟩) ∧
    (∀ k a0 rest,
        (feature_class_sklearn_regression_body env sk t dv iv a n od).outcome =
          .error (.other k (a0 :: rest)) →
      feature_class_sklearn_regression env sk t dv iv a n od =
        ⟨(feature_class_sklearn_regression_body env sk t dv iv a n od).fs,
         (feature_class_sklearn_regression_body env sk t dv iv a n od).log ++ [a0],
         .ok ()⟩) ∧
    (∀ k, (feature_class_sklearn_regression_body env sk t dv iv a n od).outcome =
        .error (.other k []) →
      feature_class_sklearn_regression env sk t dv iv a n od =
        ⟨(feature_class_sklearn_regression_body env sk t dv iv a n od).fs,
         (feature_class_sklearn_regression_body env sk t dv iv a n od).log,
         .error (.other "IndexError" ["tuple index out of range"])⟩) := by
  refine ⟨?_, ?_, ?_⟩
  · intro args h
    simp [feature_class_sklearn_regression, h]
  · intro k a0 rest h
    simp [feature_class_sklearn_regression, h]
  · intro k h
    simp [feature_class_sklearn_regression, h]

/-- C4 witness: the three handler behaviors on concrete runs — an
`ExecuteError` from `arcpy.Describe`, a one-argument `ValueError` from the
fit, and an empty-args exception from the fit. -/
theorem exception_handlers_behavior_witness :
    (feature_class_sklearn_regression envExecuteError skSpec "LinearRegression" "dep"
      ["x"] 1 false (some "outdir") =
      ⟨(feature_class_sklearn_regression_body envExecuteError skSpec "LinearRegression"
          "dep" ["x"] 1 false (some "outdir")).fs,
       (feature_class_sklearn_regression_body envExecuteError skSpec "LinearRegression"
          "dep" ["x"] 1 false (some "outdir")).log ++ [envExecuteError.messages2],
       .ok ()⟩) ∧
    (feature_class_sklearn_regression envHappy skFitRaisesValueError "LinearRegression"
      "dep" ["x"] 1 false (some "outdir") =
      ⟨(feature_class_sklearn_regression_body envHappy skFitRaisesValueError
          "LinearRegression" "dep" ["x"] 1 false (some "outdir")).fs,
       (feature_class_sklearn_regression_body envHappy skFitRaisesValueError
          "LinearRegression" "dep" ["x"] 1 false (some "outdir")).log ++ ["fit failed"],
       .ok ()⟩) ∧
    (feature_class_sklearn_regression envHappy skFitRaisesArgless "LinearRegression"
      "dep" ["x"] 1 false (some "outdir") =
      ⟨(feature_class_sklearn_regression_body envHappy skFitRaisesArgless
          "LinearRegression" "dep" ["x"] 1 false (some "outdir")).fs,
       (feature_class_sklearn_regression_body envHappy skFitRaisesArgless
          "LinearRegression" "dep" ["x"] 1 false (some "outdir")).log,
       .error (.other "IndexError" ["tuple index out of range"])⟩) :=
  ⟨(exception_handlers_behavior envExecuteError skSpec "LinearRegression" "dep" ["x"]
      1 false (some "outdir")).1 ["ERROR 000732"] (by with_unfolding_all rfl),
   (exception_handlers_behavior envHappy skFitRaisesValueError "LinearRegression" "dep"
      ["x"] 1 false (some "outdir")).2.1 "ValueError" "fit failed" []
      (by with_unfolding_all rfl),
   (exception_handlers_behavior envHappy skFitRaisesArgless "LinearRegression" "dep"
      ["x"] 1 false (some "outdir")).2.2 "MemoryError" (by with_unfolding_all rfl)⟩

/-- C4 counterexample: a fit raising an exception with empty `args`
crashes the generic handler itself — the invocation ends with an escaped
`IndexError` instead of a reported message, contradicting the claim that
the handlers never crash. -/
theorem empty_args_exception_crashes_handler :
    (feature_class_sklearn_regression envHappy skFitRaisesArgless "LinearRegression"
      "dep" ["x"] 1 false (some "outdir")).outcome =
      .error (.other "IndexError" ["tuple index out of range"]) := by
  with_unfolding_all rfl

/-- Auxiliary: the report loop never touches the model file. -/
theorem writeReportLines_fst_modelFile (valid : Bool) (fs : FS) (log lines : List String) :
    (writeReportLines valid fs log lines).1.modelFile = fs.modelFile :=
  (writeReportLines_preserves valid fs log lines).1

/-- C9: `get_model` resolves its module argument through the script's
global namespace — an unbound module name raises `KeyError` with no log
line emitted, i.e. before the estimator class is ever consulted; and the
orchestrator's call site fixes the module to `"linear_model"`, so (for a
class-preserving fit) any model it ever serializes belongs to a class
found by name in the `linear_model` binding of `globals()`. -/
theorem module_resolution_via_globals :
    (∀ (g : List (String × SkModule)) (t m : String) (a : ℚ) (n : Bool),
        lookupGlobal g m = none →
        get_model g t m a n = ([], .error (.other "KeyError" [m]))) ∧
    (∀ (env : ArcEnv) (sk : SkEnv) (t dv : String) (iv : List String) (a : ℚ)
        (n : Bool) (od : Option String) (e : Estimator),
        env.fs0.modelFile = none →
        (∀ e0 X y e1, sk.fit e0 X y = .ok e1 → e1.className = e0.className) →
        (feature_class_sklearn_regression env sk t dv iv a n od).fs.modelFile = some e →
        ∃ mod cls, lookupGlobal env.globalsMap "linear_model" = some mod ∧
          findClass mod t = some cls ∧ e.className = t) := by
  constructor
  · intro g t m a n h
    simp [get_model, h]
  · intro env sk t dv iv a n od e hmf hfitcn hsome
    rw [wrapper_fs_eq_body_fs] at hsome
    unfold feature_class_sklearn_regression_body at hsome
    rcases hdesc : env.describeResult with ed | desc
    · rw [hdesc] at hsome
      simp [hmf] at hsome
    rw [hdesc] at hsome
    dsimp only at hsome
    rcases hget : get_model env.globalsMap t "linear_model" a n with ⟨glog, res⟩
    rw [hget] at hsome
    rcases hres : res with eg | m0
    · rw [hres] at hsome
      simp [hmf] at hsome
    rw [hres] at hget hsome
    dsimp only at hsome
    rcases hf : sk.fit m0 env.independent_array env.dependent_array with ef | fitted
    · rw [hf] at hsome
      simp [hmf] at hsome
    rw [hf] at hsome
    dsimp only at hsome
    rcases hp : sk.predict fitted env.independent_array with ep | preds
    · rw [hp] at hsome
      simp [hmf] at hsome
    rw [hp] at hsome
    dsimp only at hsome
    rcases hx : env.extendResult with ee | u
    · rw [hx] at hsome
      simp [hmf] at hsome
    rw [hx] at hsome
    dsimp only at hsome
    rcases hs : regression_summary sk.metrics sk.feature_selection fitted
        env.dependent_array preds iv env.independent_array with es | report
    · rw [hs] at hsome
      simp [hmf] at hsome
    rw [hs] at hsome
    dsimp only at hsome
    rcases hid : isdir od env.fs0 with ei | valid
    · rw [hid] at hsome
      simp [hmf] at hsome
    rw [hid] at hsome
    dsimp only at hsome
    cases valid with
    | false =>
      simp [writeReportLines_fst_modelFile, hmf] at hsome
    | true =>
      rcases hd : env.dumpResult with ed2 | u2
      · rw [hd] at hsome
        simp at hsome
      rw [hd] at hsome
      simp [writeReportLines_fst_modelFile] at hsome
      obtain ⟨mod, cls, hmod, hcls, hcn⟩ :=
        get_model_ok_className env.globalsMap t "linear_model" a n glog m0 hget
      refine ⟨mod, cls, hmod, hcls, ?_⟩
      have he : fitted = e := hsome
      rw [← he, hfitcn m0 env.independent_array env.dependent_array fitted hf, hcn]

/-- C9 witness: an unbound module name fails with `KeyError` before any
log line; and the model serialized by a benign run through the public
entry point is resolvable by name in the `linear_model` namespace. -/
theorem module_resolution_via_globals_witness :
    get_model [] "LinearRegression" "linear_model" 1 false =
      ([], .error (.other "KeyError" ["linear_model"])) ∧
    (∃ mod cls, lookupGlobal envHappy.globalsMap "linear_model" = some mod ∧
      findClass mod "LinearRegression" = some cls ∧
      (⟨"LinearRegression", false, true, none, some false, some [1], some 0⟩ :
        Estimator).className = "LinearRegression") :=
  ⟨module_resolution_via_globals.1 [] "LinearRegression" "linear_model" 1 false rfl,
   module_resolution_via_globals.2 envHappy skSpec "LinearRegression" "dep" ["x"]
     1 false (some "outdir")
     ⟨"LinearRegression", false, true, none, some false, some [1], some 0⟩
     rfl olsFit_preserves_className (by with_unfolding_all rfl)⟩

end GeoLearn
